import Mathlib

/-!
Shallow embedding of the decision and planning engine of the
aws-slurm-burst-advisor repository, and proofs checking the claims of its
natural-language specification against the code.

Modelling conventions:
  - Go `float64` is modelled as `ℚ` (exact rational arithmetic);
  - Go `int` / `int64` and `time.Duration` (a nanosecond count) as `Int`;
  - Go string-keyed maps as association lists; a Go map read returns the
    zero value when the key is absent;
  - Go conversions `int64(f)` / `time.Duration(f)` truncate toward zero,
    modelled by `ratTrunc`;
  - strings built with `fmt.Sprintf` keep their branch structure, but the
    purely presentational numeric interpolation is elided (no claim reads
    back those numbers).
-/

namespace ASBA

/-- Go `time.Duration`: a count of nanoseconds (`int64`). -/
abbrev Duration := Int

/-- Nanoseconds in one second (Go `time.Second`). -/
def timeSecond : Int := 1000000000

/-- Nanoseconds in one minute (Go `time.Minute`). -/
def timeMinute : Int := 60 * timeSecond

/-- Nanoseconds in one hour (Go `time.Hour`). -/
def timeHour : Int := 60 * timeMinute

/-- Truncation of a rational toward zero: Go conversion `int64(f)` of a
`float64` value. -/
def ratTrunc (q : ℚ) : Int := Int.tdiv q.num (q.den : Int)

/-- Go integer division truncates toward zero (`Int.tdiv` in Lean). -/
def goDiv (a b : Int) : Int := Int.tdiv a b

/-- Read of a Go `map[string]int`: zero value when the key is absent. -/
def mapGet (m : List (String × Int)) (k : String) : Int :=
  match m.find? (fun p => p.1 = k) with
  | some p => p.2
  | none => 0

/-! ## Domain model: `internal/types/job.go` -/

/-- `types.JobRequest` (internal/types/job.go): the normalized resource ask.
`tres` models the Go `map[string]int` TRES field as an association list. -/
structure JobRequest where
  jobName : String
  nodes : Int
  cpusPerTask : Int
  nTasksPerNode : Int
  timeLimit : Int
  memory : String
  tres : List (String × Int)
  account : String
  qos : String
  deriving Repr, DecidableEq

/-- `JobRequest.TotalCPUs` (job.go): `Nodes * NTasksPerNode * CPUsPerTask`. -/
def JobRequest.totalCPUs (j : JobRequest) : Int :=
  j.nodes * j.nTasksPerNode * j.cpusPerTask

/-- `JobRequest.TotalTasks` (job.go): `Nodes * NTasksPerNode`. -/
def JobRequest.totalTasks (j : JobRequest) : Int :=
  j.nodes * j.nTasksPerNode

/-- `JobRequest.HasGPUs` (job.go): the TRES map holds a positive gpu count. -/
def JobRequest.hasGPUs (j : JobRequest) : Bool :=
  decide (0 < mapGet j.tres "gpu")

/-- `JobRequest.Validate` (job.go).  The Go method both mutates the receiver
(defaulting a non-positive `NTasksPerNode` to 1) and returns an error; we
return the resulting request together with the optional error message.
The source checks, in order: `Nodes <= 0` (error), `CPUsPerTask <= 0`
(error), `NTasksPerNode <= 0` (mutate to 1, no error), `TimeLimit <= 0`
(error). -/
def JobRequest.validate (j : JobRequest) : JobRequest × Option String :=
  if j.nodes ≤ 0 then (j, some "nodes must be positive")
  else if j.cpusPerTask ≤ 0 then (j, some "cpus_per_task must be positive")
  else
    let j1 := if j.nTasksPerNode ≤ 0 then { j with nTasksPerNode := 1 } else j
    if j1.timeLimit ≤ 0 then (j1, some "time_limit must be positive")
    else (j1, none)

/-! ## Domain model: `internal/types/analysis.go` -/

/-- `types.CostBreakdown` (internal/types/analysis.go). -/
structure CostBreakdown where
  computeCost : ℚ
  nodeCost : ℚ
  overheadCost : ℚ
  dataTransferCost : ℚ
  storageCost : ℚ
  totalCost : ℚ
  deriving Repr, DecidableEq

/-- `types.PartitionAnalysis` (internal/types/analysis.go): a venue snapshot.
`partitionType` is the Go `Type` field, "local" or "aws". -/
structure PartitionAnalysis where
  name : String
  partitionType : String
  queueDepth : Int
  estimatedWaitTime : Int
  startupTime : Int
  availableNodes : Int
  totalNodes : Int
  estimatedCost : CostBreakdown
  instanceType : String
  currentPrice : ℚ
  deriving Repr, DecidableEq

/-- `PartitionAnalysis.UtilizationRate` (analysis.go): returns 0 when
`TotalNodes == 0`, else `(TotalNodes - AvailableNodes) / TotalNodes`. -/
def PartitionAnalysis.utilizationRate (p : PartitionAnalysis) : ℚ :=
  if p.totalNodes = 0 then 0
  else ((p.totalNodes - p.availableNodes : Int) : ℚ) / (p.totalNodes : ℚ)

/-- `types.DecisionWeights` (analysis.go). -/
structure DecisionWeights where
  costWeight : ℚ
  timeWeight : ℚ
  timeValuePerHour : ℚ
  reliabilityWeight : ℚ
  sustainabilityWeight : ℚ
  riskWeight : ℚ
  deriving Repr, DecidableEq

/-- `types.Recommendation` (analysis.go).  `preferred` is the Go
`RecommendationType` string, "local" or "aws".  The `RiskAssessment` and
`Sustainability` reporting strings of the Go struct are never written by
the decision engine and not read by any claim; they are omitted. -/
structure Recommendation where
  preferred : String
  timeSavings : Int
  costDifference : ℚ
  breakevenTime : Int
  confidence : ℚ
  reasoning : List String
  score : ℚ
  deriving Repr, DecidableEq

/-! ## Domain model: `internal/types/execution.go` (run records) -/

/-- `types.JobEfficiencyData` (src/unnamed/part_011): one historical run with
its derived efficiency fields.  Field names ending in `Ratio` in the source
carry a `GB` suffix here (they are GB-per-CPU quantities). -/
structure JobEfficiencyData where
  jobID : String
  jobName : String
  user : String
  scriptPath : String
  scriptHash : String
  /-- Unix seconds of the submission time. -/
  submissionTime : Int
  requestedCPUs : Int
  requestedMemoryMB : Int
  requestedGPUs : Int
  requestedTime : Int
  actualTime : Int
  maxMemoryUsedMB : Int
  totalCPUTime : Int
  cpuTimeAvailable : Int
  cpuEfficiency : ℚ
  memoryEfficiency : ℚ
  timeEfficiency : ℚ
  reqCpuMemRatioGB : ℚ
  actualCpuMemRatioGB : ℚ
  effectiveCPUs : ℚ
  partition : String
  exitCode : Int
  queueWaitTime : Int
  executionPlatform : String
  workloadType : String
  bottleneckType : String
  deriving Repr, DecidableEq

/-- `JobEfficiencyData.IsSuccessful` (part_011): `ExitCode == 0`. -/
def JobEfficiencyData.isSuccessful (j : JobEfficiencyData) : Bool :=
  decide (j.exitCode = 0)

/-- `JobEfficiencyData.classifyWorkload` (part_011): the first-match
workload-type switch over the derived efficiencies. -/
def JobEfficiencyData.classifyWorkload (j : JobEfficiencyData) : String :=
  if j.cpuEfficiency > 80 ∧ j.memoryEfficiency < 60 then "cpu-bound"
  else if j.memoryEfficiency > 80 ∧ j.cpuEfficiency < 60 then "memory-bound"
  else if j.cpuEfficiency > 70 ∧ j.memoryEfficiency > 70 then "balanced"
  else if j.cpuEfficiency < 40 ∧ j.memoryEfficiency < 40 then "over-allocated"
  else "mixed"

/-- `JobEfficiencyData.identifyBottleneck` (part_011): the first-match
bottleneck switch. -/
def JobEfficiencyData.identifyBottleneck (j : JobEfficiencyData) : String :=
  if j.memoryEfficiency > 90 then "memory"
  else if j.cpuEfficiency > 90 then "cpu"
  else if j.timeEfficiency > 95 then "time-limit"
  else if j.cpuEfficiency < 30 then "cpu-over-allocation"
  else if j.memoryEfficiency < 30 then "memory-over-allocation"
  else "balanced"

/-! ## Decision engine: `internal/analyzer/decision_engine.go` -/

/-- Time factor of `DecisionEngine.calculateScore` (decision_engine.go):
`100 - 10 * hours(EstimatedWaitTime)`, floored at 0. -/
def timeScoreOf (analysis : PartitionAnalysis) : ℚ :=
  let waitTimeHours : ℚ := (analysis.estimatedWaitTime : ℚ) / (timeHour : ℚ)
  let t := 100 - waitTimeHours * 10
  if t < 0 then 0 else t

/-- Cost factor of `DecisionEngine.calculateScore` (decision_engine.go):
`100 - TotalCost/maxCost * 100` with the fixed reference `maxCost = 100`,
floored at 0. -/
def costScoreOf (analysis : PartitionAnalysis) : ℚ :=
  let maxCost : ℚ := 100
  let c := 100 - analysis.estimatedCost.totalCost / maxCost * 100
  if c < 0 then 0 else c

/-- Availability factor of `DecisionEngine.calculateScore`
(decision_engine.go): the default is the neutral 50; an "aws" partition gets
90; a partition with `AvailableNodes > 0 && TotalNodes > 0` gets the
availability ratio times 100. -/
def availScoreOf (analysis : PartitionAnalysis) : ℚ :=
  if analysis.partitionType = "aws" then 90
  else if 0 < analysis.availableNodes ∧ 0 < analysis.totalNodes then
    (analysis.availableNodes : ℚ) / (analysis.totalNodes : ℚ) * 100
  else 50

/-- `DecisionEngine.calculateScore` (decision_engine.go): the weighted
combination of the three factors.  The `job` argument is taken by the Go
method but not read. -/
def calculateScore (weights : DecisionWeights) (analysis : PartitionAnalysis)
    (_job : JobRequest) : ℚ :=
  timeScoreOf analysis * weights.timeWeight +
    costScoreOf analysis * weights.costWeight +
    availScoreOf analysis * weights.reliabilityWeight

/-- `DecisionEngine.calculateConfidence` (decision_engine.go): the absolute
score difference over 100, capped at 1.0 above and 0.1 below. -/
def calculateConfidence (localScore awsScore : ℚ) : ℚ :=
  let scoreDiff := localScore - awsScore
  let scoreDiffAbs := if scoreDiff < 0 then -scoreDiff else scoreDiff
  let confidence := scoreDiffAbs / 100
  let confidenceCapped := if confidence > 1 then 1 else confidence
  if confidenceCapped < 1 / 10 then 1 / 10 else confidenceCapped

/-- `DecisionEngine.generateReasoning` (decision_engine.go).  The branch
structure is the source code; the numeric `Sprintf` interpolation inside
the sentences is elided (presentation only, no claim reads it back). -/
def generateReasoning (lp ap : PartitionAnalysis) (job : JobRequest)
    (costDiff : ℚ) (timeSavings : Int) : List String :=
  let reasoning :=
    (if timeSavings > 30 * timeMinute then
      ["Significant time savings by using AWS"]
     else if timeSavings < -(30 * timeMinute) then
      ["Local cluster is faster"]
     else []) ++
    (if costDiff > 5 then ["AWS costs more"]
     else if costDiff < -5 then ["AWS costs less"]
     else []) ++
    (if lp.queueDepth > 5 then ["Heavy queue load on local cluster"]
     else []) ++
    (if 0 < mapGet job.tres "gpu" ∧ ap.instanceType ≠ "" then
      ["GPU job using instances on AWS"]
     else [])
  if reasoning = [] then
    ["Decision based on overall cost and time optimization"]
  else reasoning

/-- `DecisionEngine.Compare` (decision_engine.go): score both venues, pick
the higher score (ties break to local), attach confidence and reasoning. -/
def compare (weights : DecisionWeights) (lp ap : PartitionAnalysis)
    (job : JobRequest) : Recommendation :=
  let localTime := lp.estimatedWaitTime + job.timeLimit
  let awsTime := ap.startupTime + job.timeLimit
  let costDiff := ap.estimatedCost.totalCost - lp.estimatedCost.totalCost
  let timeSavings := localTime - awsTime
  let localScore := calculateScore weights lp job
  let awsScore := calculateScore weights ap job
  let preferred := if awsScore > localScore then "aws" else "local"
  let confidence := calculateConfidence localScore awsScore
  let reasoning := generateReasoning lp ap job costDiff timeSavings
  { preferred := preferred, timeSavings := timeSavings
    costDifference := costDiff, breakevenTime := 0
    confidence := confidence, reasoning := reasoning
    score := awsScore - localScore }

/-- A convenient all-zero run record used to build concrete instances. -/
def baseRun : JobEfficiencyData :=
  { jobID := "", jobName := "", user := "", scriptPath := "", scriptHash := ""
    submissionTime := 0, requestedCPUs := 0, requestedMemoryMB := 0
    requestedGPUs := 0, requestedTime := 0, actualTime := 0
    maxMemoryUsedMB := 0, totalCPUTime := 0, cpuTimeAvailable := 0
    cpuEfficiency := 0, memoryEfficiency := 0, timeEfficiency := 0
    reqCpuMemRatioGB := 0, actualCpuMemRatioGB := 0, effectiveCPUs := 0
    partition := "", exitCode := 0, queueWaitTime := 0
    executionPlatform := "", workloadType := "", bottleneckType := "" }

/-- A convenient base job request used to build concrete instances. -/
def baseJob : JobRequest :=
  { jobName := "", nodes := 1, cpusPerTask := 1, nTasksPerNode := 1
    timeLimit := timeHour, memory := "", tres := [], account := "", qos := "" }

/-- A convenient base partition snapshot used to build concrete instances. -/
def basePart : PartitionAnalysis :=
  { name := "part", partitionType := "local", queueDepth := 0
    estimatedWaitTime := 0, startupTime := 0
    availableNodes := 0, totalNodes := 0
    estimatedCost := ⟨0, 0, 0, 0, 0, 0⟩, instanceType := ""
    currentPrice := 0 }

/-- A convenient all-zero weight vector used to build concrete instances. -/
def baseWeights : DecisionWeights := ⟨0, 0, 0, 0, 0, 0⟩

/-! ## Memory strings: `ParseMemoryString` (part_011) -/

/-- Digit-string parser used by `parseDecimal`. -/
def parseDigits (cs : List Char) : Option Nat :=
  if cs = [] then none
  else if cs.all Char.isDigit then
    some (cs.foldl (fun n c => 10 * n + (c.toNat - 48)) 0)
  else none

/-- Parser for the decimal literals Go `strconv.ParseFloat` receives from
memory strings: an optional sign, digits, an optional fractional part.
(The exotic `ParseFloat` forms — exponents, hex floats, inf — never parse
as SLURM memory quantities and are modelled as failures.) -/
def parseDecimal (s : String) : Option ℚ :=
  let signBody : ℚ × String :=
    if s.startsWith "-" then (-1, s.drop 1)
    else if s.startsWith "+" then (1, s.drop 1)
    else (1, s)
  match signBody.2.splitOn "." with
  | [intPart] =>
    (parseDigits intPart.toList).map (fun n => signBody.1 * (n : ℚ))
  | [intPart, fracPart] =>
    if intPart = "" ∧ fracPart = "" then none
    else
      let ip := if intPart = "" then some 0 else parseDigits intPart.toList
      let fp := if fracPart = "" then some 0 else parseDigits fracPart.toList
      match ip, fp with
      | some n, some f =>
        some (signBody.1 * ((n : ℚ) + (f : ℚ) / (10 : ℚ) ^ fracPart.length))
      | _, _ => none
  | _ => none

/-- `types.ParseMemoryString` (part_011): converts SLURM memory strings
such as "64G" or "1024M" to MB; empty or "0" parse to 0; a G suffix scales
by 1024, K divides by 1024, a bare number is MB.  Failure is `none` (the Go
function returns `(0, err)`; callers that ignore the error observe 0). -/
def parseMemoryString (memStr : String) : Option Int :=
  if memStr = "" ∨ memStr = "0" then some 0
  else
    let m := memStr.trim.toUpper
    if m.endsWith "G" then
      (parseDecimal (m.dropRight 1)).map (fun gb => ratTrunc (gb * 1024))
    else if m.endsWith "M" then
      (parseDecimal (m.dropRight 1)).map ratTrunc
    else if m.endsWith "K" then
      (parseDecimal (m.dropRight 1)).map (fun kb => ratTrunc (kb / 1024))
    else (parseDecimal m).map ratTrunc

/-! ## History store: `cmd/aws-slurm-burst-advisor/budget_commands.go`

The SQLite store is modelled as two lists: the `job_history` rows (primary
key `job_id`) and the `job_patterns` rows (primary key `script_hash`).
`INSERT OR REPLACE` deletes the conflicting row and appends the new one.
Rows inserted by `StoreJobExecution` always bind a non-NULL
`req_cpu_mem_ratio`, so the `IS NULL` disjunct of the similarity query
never fires and the column is modelled as a plain rational. -/

/-- `types.JobPattern` (part_011): per-script aggregate over runs.  Field
names ending in `Ratio` in the source carry a `GB` suffix here. -/
structure JobPattern where
  scriptName : String
  scriptHash : String
  runCount : Int
  /-- Unix seconds of the most recent run. -/
  lastRun : Int
  avgCPUEfficiency : ℚ
  cpuVariability : ℚ
  typicalEffectiveCPUs : ℚ
  avgMemoryEfficiency : ℚ
  memoryVariability : ℚ
  typicalMemoryUsageGB : ℚ
  avgRequestedRatioGB : ℚ
  avgActualRatioGB : ℚ
  workloadType : String
  avgRuntime : Int
  runtimeVariability : ℚ
  successRate : ℚ
  localExecutions : Int
  awsExecutions : Int
  preferredPlatform : String
  deriving Repr, DecidableEq

/-- The Go zero value of `types.JobPattern`. -/
def emptyPattern : JobPattern :=
  { scriptName := "", scriptHash := "", runCount := 0, lastRun := 0
    avgCPUEfficiency := 0, cpuVariability := 0, typicalEffectiveCPUs := 0
    avgMemoryEfficiency := 0, memoryVariability := 0
    typicalMemoryUsageGB := 0, avgRequestedRatioGB := 0
    avgActualRatioGB := 0, workloadType := "", avgRuntime := 0
    runtimeVariability := 0, successRate := 0, localExecutions := 0
    awsExecutions := 0, preferredPlatform := "" }

/-- Go `filepath.Base`: the last element of a slash-separated path; "." for
the empty path, "/" when the path holds only slashes. -/
def filepathBase (path : String) : String :=
  if path = "" then "."
  else
    match ((path.splitOn "/").filter (fun t => t ≠ "")).getLast? with
    | some t => t
    | none => "/"

/-- The mutation body of `JobHistoryDB.updateJobPattern`
(budget_commands.go): increment the run count, set the last-run time, fold
the run into the running means (first run sets them), update the success
rate, platform counts, preferred platform and workload type.  The Go code
mutates field groups under repeated `RunCount == 1` tests; here each field
carries its own equal test.  `AvgRuntime` passes through seconds
(`Duration.Seconds`, then `time.Duration(avgSeconds) * time.Second`,
truncating). -/
def applyRunToPattern (p : JobPattern) (job : JobEfficiencyData) : JobPattern :=
  let rc := p.runCount + 1
  let w : ℚ := 1 / (rc : ℚ)
  let newAws := if job.executionPlatform = "aws" then p.awsExecutions + 1
    else p.awsExecutions
  let newLocal := if job.executionPlatform = "aws" then p.localExecutions
    else p.localExecutions + 1
  { p with
    runCount := rc
    lastRun := job.submissionTime
    avgCPUEfficiency := if rc = 1 then job.cpuEfficiency
      else p.avgCPUEfficiency * (1 - w) + job.cpuEfficiency * w
    typicalEffectiveCPUs := if rc = 1 then job.effectiveCPUs
      else p.typicalEffectiveCPUs * (1 - w) + job.effectiveCPUs * w
    avgMemoryEfficiency := if rc = 1 then job.memoryEfficiency
      else p.avgMemoryEfficiency * (1 - w) + job.memoryEfficiency * w
    typicalMemoryUsageGB := if rc = 1 then (job.maxMemoryUsedMB : ℚ) / 1024
      else p.typicalMemoryUsageGB * (1 - w) + (job.maxMemoryUsedMB : ℚ) / 1024 * w
    avgRequestedRatioGB := if rc = 1 then job.reqCpuMemRatioGB
      else p.avgRequestedRatioGB * (1 - w) + job.reqCpuMemRatioGB * w
    avgActualRatioGB := if rc = 1 then job.actualCpuMemRatioGB
      else p.avgActualRatioGB * (1 - w) + job.actualCpuMemRatioGB * w
    avgRuntime := if rc = 1 then job.actualTime
      else ratTrunc ((p.avgRuntime : ℚ) / (timeSecond : ℚ) * (1 - w) +
        (job.actualTime : ℚ) / (timeSecond : ℚ) * w) * timeSecond
    successRate := if job.isSuccessful then
        (p.successRate * ((rc : ℚ) - 1) + 1) / (rc : ℚ)
      else p.successRate * ((rc : ℚ) - 1) / (rc : ℚ)
    localExecutions := newLocal
    awsExecutions := newAws
    preferredPlatform := if newAws > newLocal then "aws" else "local"
    workloadType := job.workloadType }

/-- `JobHistoryDB.storeJobPattern`: `INSERT OR REPLACE` into `job_patterns`
keyed by `script_hash`. -/
def storeJobPattern (patterns : List JobPattern) (p : JobPattern) :
    List JobPattern :=
  patterns.filter (fun q => !(q.scriptHash == p.scriptHash)) ++ [p]

/-- The `getJobPattern`-or-fresh step of `updateJobPattern`
(budget_commands.go): the stored pattern for the script hash, or a new one
carrying the hash and the base name of the script path. -/
def patternBaseOf (patterns : List JobPattern) (job : JobEfficiencyData) :
    JobPattern :=
  match patterns.find? (fun p => p.scriptHash == job.scriptHash) with
  | some p => p
  | none =>
    { emptyPattern with
      scriptHash := job.scriptHash
      scriptName := filepathBase job.scriptPath }

/-- `JobHistoryDB.updateJobPattern` (budget_commands.go): skip when the run
has no script hash; otherwise fetch the existing pattern (or start a fresh
one named after the script), fold the run in, and store the result. -/
def updateJobPattern (patterns : List JobPattern) (job : JobEfficiencyData) :
    List JobPattern :=
  if job.scriptHash = "" then patterns
  else storeJobPattern patterns (applyRunToPattern (patternBaseOf patterns job) job)

/-- `JobHistoryDB` (budget_commands.go): the two SQLite tables. -/
structure JobHistoryDB where
  runs : List JobEfficiencyData
  patterns : List JobPattern
  deriving Repr, DecidableEq

/-- The store-then-scan round trip of a run record: duration columns are
stored as whole `int64` seconds (`StoreJobExecution`) and scanned back
(`scanJobRows`) as `Duration(n) * time.Second` — except `RequestedTime`,
which `scanJobRows` scans straight into the duration field, so the stored
seconds count comes back as a nanosecond count. -/
def storeScanRoundTrip (j : JobEfficiencyData) : JobEfficiencyData :=
  { j with
    requestedTime := goDiv j.requestedTime timeSecond
    actualTime := goDiv j.actualTime timeSecond * timeSecond
    totalCPUTime := goDiv j.totalCPUTime timeSecond * timeSecond
    cpuTimeAvailable := goDiv j.cpuTimeAvailable timeSecond * timeSecond
    queueWaitTime := goDiv j.queueWaitTime timeSecond * timeSecond }

/-- `JobHistoryDB.StoreJobExecution` (budget_commands.go):
`INSERT OR REPLACE` of the run keyed by `job_id` (every later read passes
through the scan round trip, applied here at insertion), then
`updateJobPattern` with the in-memory record.  The read-only skip and the
warn-but-continue pattern failure path carry no data content. -/
def storeJobExecution (db : JobHistoryDB) (job : JobEfficiencyData) :
    JobHistoryDB :=
  { runs := db.runs.filter (fun r => !(r.jobID == job.jobID)) ++
      [storeScanRoundTrip job]
    patterns := updateJobPattern db.patterns job }

/-- The `ORDER BY submission_time DESC` of the two similarity queries
(SQLite leaves ties unspecified; the model picks the stable insertion
sort). -/
def sortByTimeDesc (l : List JobEfficiencyData) : List JobEfficiencyData :=
  l.insertionSort (fun a b => b.submissionTime ≤ a.submissionTime)

/-- `JobHistoryDB.getJobsByScriptHash` (budget_commands.go): rows with the
given script hash and exit code 0, newest first, at most 20. -/
def getJobsByScriptHash (db : JobHistoryDB) (scriptHash : String) :
    List JobEfficiencyData :=
  (sortByTimeDesc (db.runs.filter
    (fun j => j.scriptHash == scriptHash && j.exitCode == 0))).take 20

/-- `JobHistoryDB.getJobsBySimilarResources` (budget_commands.go): rows
with exit code 0 whose requested CPUs lie between `int(0.5·totalCPUs)` and
`int(2·totalCPUs)` for `totalCPUs = Nodes · CPUsPerTask` (tasks-per-node is
not part of this product in the source), and whose requested CPU-memory
ratio lies between half and twice the ratio implied by the request (0 when
the memory string is empty or unparsable); newest first, at most 10.
The Go bounds `int(float64(totalCPUs)*0.5)` and `int(float64(totalCPUs)*2.0)`
are exact float operations: halving truncated toward zero and doubling. -/
def getJobsBySimilarResources (db : JobHistoryDB) (pattern : JobRequest) :
    List JobEfficiencyData :=
  let cpuMemRatioGB : ℚ :=
    if 0 < pattern.nodes ∧ 0 < pattern.cpusPerTask then
      if 0 < pattern.memory.length then
        match parseMemoryString pattern.memory with
        | some memMB =>
          (memMB : ℚ) / 1024 / ((pattern.nodes * pattern.cpusPerTask : Int) : ℚ)
        | none => 0
      else 0
    else 0
  let totalCPUs := pattern.nodes * pattern.cpusPerTask
  let cpuMin := goDiv totalCPUs 2
  let cpuMax := 2 * totalCPUs
  let ratioMin := cpuMemRatioGB * (1 / 2)
  let ratioMax := cpuMemRatioGB * 2
  (sortByTimeDesc (db.runs.filter (fun j =>
    j.exitCode == 0 &&
    decide (cpuMin ≤ j.requestedCPUs) && decide (j.requestedCPUs ≤ cpuMax) &&
    decide (ratioMin ≤ j.reqCpuMemRatioGB) &&
    decide (j.reqCpuMemRatioGB ≤ ratioMax)))).take 10

/-- `JobHistoryDB.FindSimilarJobs` (budget_commands.go): the exact-hash
matches, plus the resource-similar matches when there are fewer than 3
exact ones. -/
def findSimilarJobs (db : JobHistoryDB) (scriptHash : String)
    (resourcePattern : JobRequest) : List JobEfficiencyData :=
  let exactMatches := getJobsByScriptHash db scriptHash
  exactMatches ++
    (if exactMatches.length < 3
     then getJobsBySimilarResources db resourcePattern else [])

/-! ## History-aware optimizer: `internal/analyzer/history_analyzer.go` -/

/-- `analyzer.ResourceOptimization` (history_analyzer.go).  The `Reasoning`
sentences keep their branch identity but their `Sprintf` numerics are
elided (presentation only). -/
structure ResourceOptimization where
  resourceType : String
  currentValue : String
  suggestedValue : String
  reasoning : String
  confidenceLevel : ℚ
  localSavings : ℚ
  awsSavings : ℚ
  riskLevel : String
  deriving Repr, DecidableEq

/-- `analyzer.InstanceRecommendation` (history_analyzer.go); presentation
strings elided of their numerics as above. -/
structure InstanceRecommendation where
  instanceFamily : String
  instanceType : String
  currentType : String
  reasoning : String
  costImpact : String
  performanceImpact : String
  cpuMemoryRatioGB : ℚ
  confidenceLevel : ℚ
  deriving Repr, DecidableEq

/-- `analyzer.WorkloadCharacteristics` (history_analyzer.go). -/
structure WorkloadCharacteristics where
  avgCPUEfficiency : ℚ
  avgMemoryEfficiency : ℚ
  avgCPUMemoryRatioGB : ℚ
  sampleSize : Int
  deriving Repr, DecidableEq

/-- `analyzer.DecisionImpact` (history_analyzer.go). -/
structure DecisionImpact where
  originalRecommendation : String
  optimizedRecommendation : String
  decisionChanged : Bool
  impactDescription : String
  costDifferenceChange : ℚ
  timeDifferenceChange : Int
  deriving Repr, DecidableEq

/-- `analyzer.HistoryInsights` (history_analyzer.go), restricted to the
fields the claims read: `SimilarJobsFound` and `Confidence`.  The trends,
pattern and performance-history payloads are reporting data not read by
any claim. -/
structure HistoryInsights where
  similarJobsFound : Int
  confidence : ℚ
  deriving Repr, DecidableEq

/-- `types.Analysis` (analysis.go): the pair of venue snapshots with the
recommendation (the wall-clock `Timestamp` is elided). -/
structure Analysis where
  targetPartition : PartitionAnalysis
  burstPartition : PartitionAnalysis
  recommendation : Recommendation
  jobRequest : JobRequest
  deriving Repr, DecidableEq

/-- `analyzer.EnhancedAnalysis` (history_analyzer.go). -/
structure EnhancedAnalysis where
  current : Analysis
  optimized : Option Analysis
  historyInsights : Option HistoryInsights
  resourceOptimizations : List ResourceOptimization
  instanceRecommendations : List InstanceRecommendation
  decisionImpact : Option DecisionImpact
  deriving Repr, DecidableEq

/-- Rendering of a rational with one decimal digit (Go `%.1f`; ties are
rounded up here where Go resolves the binary representation — the claims
never read these strings back). -/
def formatTenths (q : ℚ) : String :=
  let t := round (q * 10)
  toString (Int.tdiv t 10) ++ "." ++ toString (Int.tmod t 10)

/-- Rendering of a rational with two decimal digits (Go `%.2f`), same
caveats as `formatTenths`. -/
def formatHundredths (q : ℚ) : String :=
  let t := round (q * 100)
  toString (Int.tdiv t 100) ++ "." ++ toString (Int.tmod t 100)

/-- `types.FormatMemoryMB` (part_011): MB verbatim below 1 GB, one-decimal
GB below 1 TB, two-decimal TB above. -/
def formatMemoryMB (mb : Int) : String :=
  if mb < 1024 then toString mb ++ "M"
  else
    let gb : ℚ := (mb : ℚ) / 1024
    if gb < 1024 then formatTenths gb ++ "G"
    else formatHundredths (gb / 1024) ++ "T"

/-- Rendering of a Go `time.Duration` for the optimizer report.  Go prints
the human-readable form ("2h0m0s"); the model prints the underlying
nanosecond count — `applyOptimizations` parses it back with the matching
parser, so the format-parse round trip is the identity, as in Go. -/
def goDurationString (d : Int) : String := toString d

/-- The successful subset of a run history (`IsSuccessful` filter used by
every aggregation loop of history_analyzer.go). -/
def successfulRuns (history : List JobEfficiencyData) :
    List JobEfficiencyData :=
  history.filter (fun j => j.isSuccessful)

/-- Mean CPU efficiency over the successful runs
(`generateResourceOptimizations` accumulators). -/
def avgCpuEffOf (history : List JobEfficiencyData) : ℚ :=
  ((successfulRuns history).map (fun j => j.cpuEfficiency)).sum /
    ((successfulRuns history).length : ℚ)

/-- Mean memory efficiency over the successful runs. -/
def avgMemEffOf (history : List JobEfficiencyData) : ℚ :=
  ((successfulRuns history).map (fun j => j.memoryEfficiency)).sum /
    ((successfulRuns history).length : ℚ)

/-- Mean time efficiency over the successful runs. -/
def avgTimeEffOf (history : List JobEfficiencyData) : ℚ :=
  ((successfulRuns history).map (fun j => j.timeEfficiency)).sum /
    ((successfulRuns history).length : ℚ)

/-- Mean max-RSS in GB over the successful runs. -/
def avgMemUsageGBOf (history : List JobEfficiencyData) : ℚ :=
  ((successfulRuns history).map
    (fun j => (j.maxMemoryUsedMB : ℚ) / 1024)).sum /
    ((successfulRuns history).length : ℚ)

/-- Mean runtime in hours over the successful runs (`ActualTime.Hours`). -/
def avgRuntimeHoursOf (history : List JobEfficiencyData) : ℚ :=
  ((successfulRuns history).map
    (fun j => (j.actualTime : ℚ) / (timeHour : ℚ))).sum /
    ((successfulRuns history).length : ℚ)

/-- `calculateOptimizationConfidence` (history_analyzer.go): base 0.8
below 50 percent efficiency, 0.6 below 70, else 0.5; scaled by the sample
factor capped at 1 from 10 samples. -/
def calculateOptimizationConfidence (efficiency : ℚ) (sampleSize : Int) : ℚ :=
  let baseConfidence :=
    if efficiency < 50 then (8 : ℚ) / 10
    else if efficiency < 70 then (6 : ℚ) / 10
    else (5 : ℚ) / 10
  let sampleConfidence := (sampleSize : ℚ) / 10
  let sampleCapped := if sampleConfidence > 1 then 1 else sampleConfidence
  baseConfidence * sampleCapped

/-- `assessOptimizationRisk` (history_analyzer.go). -/
def assessOptimizationRisk (efficiency : ℚ) (sampleSize : Int) : String :=
  if sampleSize < 3 then "medium"
  else if efficiency < 50 then "low"
  else if efficiency < 70 then "low"
  else "medium"

/-- The suggested memory in MB of the memory branch:
`int64(1.25 · mean(max-RSS-GB) · 1024)`. -/
def memSuggestedMB (history : List JobEfficiencyData) : Int :=
  ratTrunc (avgMemUsageGBOf history * (5 / 4) * 1024)

/-- The memory `ResourceOptimization` record assembled by the memory
branch of `generateResourceOptimizations`. -/
def memOptRecord (job : JobRequest) (history : List JobEfficiencyData) :
    ResourceOptimization :=
  { resourceType := "memory"
    currentValue := job.memory
    suggestedValue := formatMemoryMB (memSuggestedMB history)
    reasoning := "Your average usage"
    confidenceLevel := calculateOptimizationConfidence (avgMemEffOf history)
      ((successfulRuns history).length : Int)
    localSavings := 0
    awsSavings := 0
    riskLevel := assessOptimizationRisk (avgMemEffOf history)
      ((successfulRuns history).length : Int) }

/-- The memory branch of `generateResourceOptimizations`
(history_analyzer.go): fires below 70 percent mean memory efficiency, when
the suggestion is positive and strictly below the current request (an
unparsable or empty memory string reads as 0 MB, as the Go caller ignores
the `ParseMemoryString` error). -/
def memoryOptOf (job : JobRequest) (history : List JobEfficiencyData) :
    List ResourceOptimization :=
  if avgMemEffOf history < 70 then
    if memSuggestedMB history < (parseMemoryString job.memory).getD 0 ∧
        memSuggestedMB history > 0 then
      [memOptRecord job history]
    else []
  else []

/-- The truncated `int(avgEffectiveCPUs · 1.2)` of the CPU branch, with
`avgEffectiveCPUs = float64(Nodes·CPUsPerTask) · avgCPUEff / 100`.  Note
the product is `Nodes · CPUsPerTask`: tasks-per-node is not a factor. -/
def cpuSuggestedRaw (job : JobRequest) (history : List JobEfficiencyData) :
    Int :=
  ratTrunc (((job.nodes * job.cpusPerTask : Int) : ℚ) *
    avgCpuEffOf history / 100 * (6 / 5))

/-- The suggested CPUs-per-task of the CPU branch: the truncated suggestion
integer-divided by the node count (no clamping at 1). -/
def cpuSuggestedPerTask (job : JobRequest)
    (history : List JobEfficiencyData) : Int :=
  goDiv (cpuSuggestedRaw job history) job.nodes

/-- The cpu `ResourceOptimization` record assembled by the CPU branch. -/
def cpuOptRecord (job : JobRequest) (history : List JobEfficiencyData) :
    ResourceOptimization :=
  { resourceType := "cpu"
    currentValue := toString job.cpusPerTask
    suggestedValue := toString (cpuSuggestedPerTask job history)
    reasoning := "Your average CPU efficiency"
    confidenceLevel := calculateOptimizationConfidence (avgCpuEffOf history)
      ((successfulRuns history).length : Int)
    localSavings := 0
    awsSavings := 0
    riskLevel := assessOptimizationRisk (avgCpuEffOf history)
      ((successfulRuns history).length : Int) }

/-- The CPU branch of `generateResourceOptimizations`
(history_analyzer.go): fires below 60 percent mean CPU efficiency when the
raw suggestion is positive and below `Nodes·CPUsPerTask` and the per-task
quotient is positive and strictly below the current CPUs-per-task. -/
def cpuOptOf (job : JobRequest) (history : List JobEfficiencyData) :
    List ResourceOptimization :=
  if avgCpuEffOf history < 60 then
    if cpuSuggestedRaw job history < job.nodes * job.cpusPerTask ∧
        cpuSuggestedRaw job history > 0 then
      if cpuSuggestedPerTask job history < job.cpusPerTask ∧
          cpuSuggestedPerTask job history > 0 then
        [cpuOptRecord job history]
      else []
    else []
  else []

/-- The suggested time limit of the time branch:
`time.Duration(avgRuntimeHours · 1.3) * time.Hour` — truncated to whole
hours. -/
def timeSuggestedLimit (history : List JobEfficiencyData) : Int :=
  ratTrunc (avgRuntimeHoursOf history * (13 / 10)) * timeHour

/-- The time `ResourceOptimization` record assembled by the time branch. -/
def timeOptRecord (job : JobRequest) (history : List JobEfficiencyData) :
    ResourceOptimization :=
  { resourceType := "time"
    currentValue := goDurationString job.timeLimit
    suggestedValue := goDurationString (timeSuggestedLimit history)
    reasoning := "Your average runtime"
    confidenceLevel := calculateOptimizationConfidence (avgTimeEffOf history)
      ((successfulRuns history).length : Int)
    localSavings := 0
    awsSavings := 0
    riskLevel := "low" }

/-- The time branch of `generateResourceOptimizations`. -/
def timeOptOf (job : JobRequest) (history : List JobEfficiencyData) :
    List ResourceOptimization :=
  if avgTimeEffOf history < 60 then
    if timeSuggestedLimit history < job.timeLimit then
      [timeOptRecord job history]
    else []
  else []

/-- `generateResourceOptimizations` (history_analyzer.go): nothing below 2
similar runs or without a successful run; otherwise the memory, CPU and
time-limit branches in order.  (The Go loop accumulates the sums once;
the branch helpers recompute the identical means.) -/
def generateResourceOptimizations (job : JobRequest)
    (history : List JobEfficiencyData) : List ResourceOptimization :=
  if history.length < 2 then []
  else if (successfulRuns history).length = 0 then []
  else memoryOptOf job history ++ cpuOptOf job history ++ timeOptOf job history

/-- `analyzeWorkloadCharacteristics` (history_analyzer.go). -/
def analyzeWorkloadCharacteristics (history : List JobEfficiencyData) :
    WorkloadCharacteristics :=
  if (successfulRuns history).length = 0 then ⟨0, 0, 0, 0⟩
  else
    { avgCPUEfficiency := avgCpuEffOf history
      avgMemoryEfficiency := avgMemEffOf history
      avgCPUMemoryRatioGB :=
        ((successfulRuns history).map (fun j => j.actualCpuMemRatioGB)).sum /
          ((successfulRuns history).length : ℚ)
      sampleSize := ((successfulRuns history).length : Int) }

/-- `calculateRecommendationConfidence` (history_analyzer.go). -/
def calculateRecommendationConfidence (chars : WorkloadCharacteristics) : ℚ :=
  let sampleFactor0 := (chars.sampleSize : ℚ) / 5
  let sampleFactor := if sampleFactor0 > 1 then 1 else sampleFactor0
  let efficiencyDiff0 := chars.avgCPUEfficiency - chars.avgMemoryEfficiency
  let efficiencyDiff := if efficiencyDiff0 < 0 then -efficiencyDiff0
    else efficiencyDiff0
  let clarityFactor0 := efficiencyDiff / 50
  let clarityFactor := if clarityFactor0 > 1 then 1 else clarityFactor0
  sampleFactor * (1 / 2 + 1 / 2 * clarityFactor)

/-- `recommendInstanceFamily` (history_analyzer.go): the fixed family
table over the workload characteristics; below 2 successful samples, no
recommendation at all. -/
def recommendInstanceFamily (chars : WorkloadCharacteristics) :
    Option InstanceRecommendation :=
  if chars.sampleSize < 2 then none
  else if chars.avgCPUEfficiency > 75 ∧ chars.avgCPUMemoryRatioGB < 4 then
    some { instanceFamily := "c5", instanceType := "", currentType := ""
           reasoning := "CPU-bound workload"
           costImpact := "lower cost per vCPU"
           performanceImpact := "higher clock speeds"
           cpuMemoryRatioGB := 2
           confidenceLevel := calculateRecommendationConfidence chars }
  else if chars.avgMemoryEfficiency > 75 ∧ chars.avgCPUMemoryRatioGB > 6 then
    some { instanceFamily := "r5", instanceType := "", currentType := ""
           reasoning := "Memory-bound workload"
           costImpact := "lower cost per GB memory"
           performanceImpact := "higher memory bandwidth"
           cpuMemoryRatioGB := 8
           confidenceLevel := calculateRecommendationConfidence chars }
  else if chars.avgCPUEfficiency > 60 ∧ chars.avgMemoryEfficiency > 60 then
    some { instanceFamily := "m5", instanceType := "", currentType := ""
           reasoning := "Balanced workload"
           costImpact := "general-purpose ratio"
           performanceImpact := "balanced performance"
           cpuMemoryRatioGB := 4
           confidenceLevel := calculateRecommendationConfidence chars }
  else
    some { instanceFamily := "m5", instanceType := "", currentType := ""
           reasoning := "Variable resource usage"
           costImpact := "consider right-sizing first"
           performanceImpact := "general-purpose instances"
           cpuMemoryRatioGB := 4
           confidenceLevel := 3 / 10 }

/-- `generateInstanceRecommendations` (history_analyzer.go): nothing below
2 similar runs; otherwise the singleton family recommendation when the
table produced one. -/
def generateInstanceRecommendations (_job : JobRequest)
    (history : List JobEfficiencyData) : List InstanceRecommendation :=
  if history.length < 2 then []
  else
    match recommendInstanceFamily (analyzeWorkloadCharacteristics history) with
    | some r => [r]
    | none => []

/-- `calculateInsightConfidence` (history_analyzer.go): sample factor
capped at 1 from 10 runs, times the consistency factor
`1/(1 + (var_cpu + var_mem)/1000)`. -/
def calculateInsightConfidence (jobs : List JobEfficiencyData) : ℚ :=
  if jobs.length = 0 then 0
  else
    let n : ℚ := (jobs.length : ℚ)
    let sample0 := n / 10
    let sampleConfidence := if sample0 > 1 then 1 else sample0
    let cpuAvg := (jobs.map (fun j => j.cpuEfficiency)).sum / n
    let memAvg := (jobs.map (fun j => j.memoryEfficiency)).sum / n
    let cpuVar := (jobs.map
      (fun j => (j.cpuEfficiency - cpuAvg) * (j.cpuEfficiency - cpuAvg))).sum / n
    let memVar := (jobs.map
      (fun j => (j.memoryEfficiency - memAvg) * (j.memoryEfficiency - memAvg))).sum / n
    let consistencyFactor := 1 / (1 + (cpuVar + memVar) / 1000)
    sampleConfidence * consistencyFactor

/-- `generateHistoryInsights` (history_analyzer.go), restricted to the
fields the claims read: the similar-job count and the insight
confidence. -/
def generateHistoryInsights (jobs : List JobEfficiencyData) :
    HistoryInsights :=
  if jobs.length = 0 then { similarJobsFound := 0, confidence := 0 }
  else { similarJobsFound := (jobs.length : Int)
         confidence := calculateInsightConfidence jobs }

/-- `applyOptimizations` (history_analyzer.go) on a clone of the request:
memory adopts the suggested string; cpu parses the suggested integer
(`Sscanf`); time parses the suggested duration rendering — the
format-parse round trips are identities as in Go. -/
def applyOptimizations (original : JobRequest)
    (opts : List ResourceOptimization) : JobRequest :=
  opts.foldl (fun j opt =>
    if opt.resourceType = "memory" then { j with memory := opt.suggestedValue }
    else if opt.resourceType = "cpu" then
      match parseDigits opt.suggestedValue.toList with
      | some n => { j with cpusPerTask := (n : Int) }
      | none => j
    else if opt.resourceType = "time" then
      match parseDigits opt.suggestedValue.toList with
      | some n => { j with timeLimit := (n : Int) }
      | none => j
    else j) original

/-- `analyzeDecisionImpact` (history_analyzer.go). -/
def analyzeDecisionImpact (original optimized : Recommendation) :
    DecisionImpact :=
  { originalRecommendation := original.preferred
    optimizedRecommendation := optimized.preferred
    decisionChanged := original.preferred != optimized.preferred
    impactDescription :=
      if original.preferred != optimized.preferred then
        "Optimization changed recommendation"
      else "Optimization reinforces recommendation"
    costDifferenceChange := optimized.costDifference - original.costDifference
    timeDifferenceChange := optimized.timeSavings - original.timeSavings }

/-- `AnalyzeWithHistory` plus `addHistoricalInsights`
(history_analyzer.go): baseline comparison, then — when the store returns
similar runs — insights, optimizations and instance recommendations, and a
re-scored decision with its impact when any optimization was emitted.  The
script-hash resolution and the warn-and-continue error paths carry no data
content; the hash is a parameter. -/
def analyzeWithHistory (weights : DecisionWeights)
    (localPartition awsPartition : PartitionAnalysis) (job : JobRequest)
    (db : JobHistoryDB) (scriptHash : String) : EnhancedAnalysis :=
  let currentRecommendation := compare weights localPartition awsPartition job
  let currentAnalysis : Analysis :=
    ⟨localPartition, awsPartition, currentRecommendation, job⟩
  let similarJobs := findSimilarJobs db scriptHash job
  if similarJobs.length = 0 then
    { current := currentAnalysis
      optimized := none
      historyInsights := some { similarJobsFound := 0, confidence := 0 }
      resourceOptimizations := []
      instanceRecommendations := []
      decisionImpact := none }
  else
    let insights := generateHistoryInsights similarJobs
    let optimizations := generateResourceOptimizations job similarJobs
    let instanceRecs := generateInstanceRecommendations job similarJobs
    if optimizations.length > 0 then
      let optimizedJob := applyOptimizations job optimizations
      let optimizedRecommendation :=
        compare weights localPartition awsPartition optimizedJob
      { current := currentAnalysis
        optimized := some
          ⟨localPartition, awsPartition, optimizedRecommendation, optimizedJob⟩
        historyInsights := some insights
        resourceOptimizations := optimizations
        instanceRecommendations := instanceRecs
        decisionImpact := some (analyzeDecisionImpact currentRecommendation
          optimizedRecommendation) }
    else
      { current := currentAnalysis
        optimized := none
        historyInsights := some insights
        resourceOptimizations := optimizations
        instanceRecommendations := instanceRecs
        decisionImpact := none }

/-! ## Execution-plan synthesizer: `src/unnamed/part_004` -/

/-- `types.SpotConfig` (internal/types/execution.go). -/
structure SpotConfig where
  enableSpot : Bool
  spotFleetRequest : Bool
  maxSpotPrice : ℚ
  spotInterruptionTolerance : ℚ
  fallbackToOnDemand : Bool
  deriving Repr, DecidableEq

/-- `types.InstanceSpec` (internal/types/execution.go). -/
structure InstanceSpec where
  instanceTypes : List String
  instanceCount : Int
  purchasingOption : String
  maxSpotPrice : ℚ
  subnetIDs : List String
  launchTemplateName : String
  spotInstanceConfig : SpotConfig
  placementGroup : String
  availabilityZones : List String
  deriving Repr, DecidableEq

/-- `types.CostConstraints` (internal/types/execution.go). -/
structure CostConstraints where
  maxTotalCost : ℚ
  maxDurationHours : ℚ
  preferSpot : Bool
  budgetAccount : String
  costTolerance : ℚ
  deriving Repr, DecidableEq

/-- `generateInstanceSpecification` (part_004): the first recommended
family (default "m5") as an ".xlarge" type, one instance per node,
purchasing option "on-demand" only when the time limit STRICTLY exceeds 4
hours — else "spot" — and a spot sub-config always allowing fallback. -/
def generateInstanceSpecification (analysis : EnhancedAnalysis)
    (job : JobRequest) : InstanceSpec :=
  let instanceTypes := match analysis.instanceRecommendations with
    | [] => ["m5.xlarge"]
    | r :: _ => [r.instanceFamily ++ ".xlarge"]
  let purchasingOption :=
    if job.timeLimit > 4 * timeHour then "on-demand" else "spot"
  { instanceTypes := instanceTypes
    instanceCount := job.nodes
    purchasingOption := purchasingOption
    maxSpotPrice := 0
    subnetIDs := []
    launchTemplateName := ""
    spotInstanceConfig :=
      { enableSpot := purchasingOption == "spot"
        spotFleetRequest := false
        maxSpotPrice := 0
        spotInterruptionTolerance := 0
        fallbackToOnDemand := true }
    placementGroup := "cluster"
    availabilityZones := [] }

/-- `generateCostConstraints` (part_004): 20 percent buffer over the cloud
estimate, the time limit in hours, spot preferred for jobs STRICTLY
shorter than 4 hours, 10 percent cost tolerance. -/
def generateCostConstraints (analysis : EnhancedAnalysis)
    (job : JobRequest) : CostConstraints :=
  { maxTotalCost := analysis.current.burstPartition.estimatedCost.totalCost *
      (6 / 5)
    maxDurationHours := (job.timeLimit : ℚ) / (timeHour : ℚ)
    preferSpot := decide (job.timeLimit < 4 * timeHour)
    budgetAccount := job.account
    costTolerance := 1 / 10 }

/-- A base recommendation value for concrete instances. -/
def baseRec : Recommendation :=
  { preferred := "local", timeSavings := 0, costDifference := 0
    breakevenTime := 0, confidence := 0, reasoning := [], score := 0 }

/-- A concrete enhanced analysis with no recommendations, for C2. -/
def c2analysis : EnhancedAnalysis :=
  { current := ⟨basePart, basePart, baseRec, baseJob⟩
    optimized := none
    historyInsights := none
    resourceOptimizations := []
    instanceRecommendations := []
    decisionImpact := none }

/-- A concrete successful run with 50 percent CPU efficiency and healthy
memory and time efficiency, used for C5. -/
def c5run : JobEfficiencyData :=
  { baseRun with
    cpuEfficiency := 50
    memoryEfficiency := 80
    timeEfficiency := 80 }

/-- A concrete request with 1 node, 2 tasks per node and 4 CPUs per task,
used for C5. -/
def c5job : JobRequest :=
  { baseJob with
    nodes := 1
    nTasksPerNode := 2
    cpusPerTask := 4 }

/-- Two copies of `c5run`: the C5 history. -/
def c5hist : List JobEfficiencyData := [c5run, c5run]

/-- The formula of claim C5 for the suggested CPUs-per-task, written from
the claim: `max(1, floor(1.2·effective/N))` with
`effective = TotalCPUs·cpu_eff/100` and `TotalCPUs = N·T·C`.  Stated for
comparison with the code-level `cpuSuggestedPerTask`. -/
def cpuSuggestedPerTaskClaim (job : JobRequest)
    (history : List JobEfficiencyData) : Int :=
  max 1 ⌊(6 / 5 : ℚ) * ((job.totalCPUs : ℚ) * avgCpuEffOf history / 100) /
    (job.nodes : ℚ)⌋

/-- A concrete run with a script fingerprint, used for the C1 instances. -/
def c1run : JobEfficiencyData :=
  { baseRun with
    jobID := "1"
    scriptHash := "h"
    scriptPath := "jobs/run.sh"
    submissionTime := 100 }

/-- A concrete successful run with 2 requested CPUs, used for C4. -/
def c4run : JobEfficiencyData :=
  { baseRun with
    jobID := "9"
    scriptHash := "other"
    requestedCPUs := 2
    submissionTime := 5 }

/-- A concrete request with 1 node, 2 tasks per node and 4 CPUs per task,
used for C4: its spec-level TotalCPUs is 8, while the similarity query is
built from nodes times CPUs-per-task = 4. -/
def c4req : JobRequest :=
  { baseJob with
    nodes := 1
    nTasksPerNode := 2
    cpusPerTask := 4 }

end ASBA

namespace ASBA

/-! ## Shared lemmas about the decision engine -/

/-- The cap-below-then-cap-above chain of `calculateConfidence` is the clamp
of the absolute score difference over 100 into the interval
from 1/10 to 1. -/
theorem calculateConfidence_eq_clamp (l a : ℚ) :
    calculateConfidence l a = max (1 / 10) (min 1 (|a - l| / 100)) := by
  simp only [calculateConfidence]
  have h1 : (if l - a < 0 then -(l - a) else l - a) = |a - l| := by
    rcases lt_or_le (l - a) 0 with h | h
    · rw [if_pos h, abs_sub_comm, abs_of_neg h]
    · rw [if_neg (not_lt.mpr h), abs_sub_comm, abs_of_nonneg h]
  rw [h1]
  rcases le_or_lt (|a - l| / 100) 1 with h2 | h2
  · rw [if_neg (not_lt.mpr h2), min_eq_right h2]
    rcases le_or_lt (1 / 10) (|a - l| / 100) with h3 | h3
    · rw [if_neg (not_lt.mpr h3), max_eq_right h3]
    · rw [if_pos h3, max_eq_left (le_of_lt h3)]
  · rw [if_pos h2]
    have hn : ¬ (1 : ℚ) < 1 / 10 := by norm_num
    rw [if_neg hn, min_eq_left (le_of_lt h2),
      max_eq_right (by norm_num : (1 : ℚ) / 10 ≤ 1)]

/-- A list defaulted to a singleton when empty is never empty. -/
theorem defaulted_ne_nil {α : Type} [DecidableEq α] (x : α) (r : List α) :
    (if r = [] then [x] else r) ≠ [] := by
  split_ifs with h
  · simp
  · exact h

/-- The reasoning list built by `generateReasoning` is never empty: when no
branch fires the default sentence is appended. -/
theorem generateReasoning_ne_nil (lp ap : PartitionAnalysis)
    (job : JobRequest) (costDiff : ℚ) (timeSavings : Int) :
    generateReasoning lp ap job costDiff timeSavings ≠ [] := by
  unfold generateReasoning
  exact defaulted_ne_nil _ _

/-! ## Shared lemmas about the history store -/

/-- Folding a run into a pattern never changes the script hash. -/
theorem applyRunToPattern_scriptHash (p : JobPattern) (job : JobEfficiencyData) :
    (applyRunToPattern p job).scriptHash = p.scriptHash := rfl

/-- Folding a run into a pattern increments the run count. -/
theorem applyRunToPattern_runCount (p : JobPattern) (job : JobEfficiencyData) :
    (applyRunToPattern p job).runCount = p.runCount + 1 := rfl

/-- After `storeJobPattern`, looking the pattern up by its script hash
finds exactly the freshly stored pattern. -/
theorem find?_storeJobPattern (h : String) (xs : List JobPattern)
    (p : JobPattern) (hp : p.scriptHash = h) :
    (storeJobPattern xs p).find? (fun q => q.scriptHash == h) = some p := by
  unfold storeJobPattern
  induction xs with
  | nil => simp [hp]
  | cons x xs ih =>
    rw [List.filter_cons]
    by_cases hx : x.scriptHash = p.scriptHash
    · simp only [hx, beq_self_eq_true, Bool.not_true, Bool.false_eq_true,
        if_false]
      exact ih
    · have hb : (x.scriptHash == p.scriptHash) = false :=
        beq_eq_false_iff_ne.mpr hx
      have hxh : (x.scriptHash == h) = false :=
        beq_eq_false_iff_ne.mpr (fun e => hx (e.trans hp.symm))
      simp only [hb, Bool.not_false, if_true, List.cons_append,
        List.find?_cons, hxh]
      exact ih

/-- The base pattern picked by `updateJobPattern` carries the script hash
of the run. -/
theorem patternBaseOf_scriptHash (ps : List JobPattern)
    (job : JobEfficiencyData) :
    (patternBaseOf ps job).scriptHash = job.scriptHash := by
  unfold patternBaseOf
  cases hfind : ps.find? (fun p => p.scriptHash == job.scriptHash) with
  | some p =>
    have := List.find?_some hfind
    simpa using this
  | none => rfl

/-- When the store already holds a pattern for the script hash, that is the
base pattern. -/
theorem patternBaseOf_of_find?_some (ps : List JobPattern)
    (job : JobEfficiencyData) (p : JobPattern)
    (h : ps.find? (fun q => q.scriptHash == job.scriptHash) = some p) :
    patternBaseOf ps job = p := by
  unfold patternBaseOf
  rw [h]

/-- After `updateJobPattern` of a run with a non-empty script hash, the
lookup by that hash finds the freshly folded pattern. -/
theorem updateJobPattern_find? (ps : List JobPattern)
    (job : JobEfficiencyData) (hne : job.scriptHash ≠ "") :
    (updateJobPattern ps job).find? (fun q => q.scriptHash == job.scriptHash)
      = some (applyRunToPattern (patternBaseOf ps job) job) := by
  unfold updateJobPattern
  rw [if_neg hne]
  exact find?_storeJobPattern _ _ _
    ((applyRunToPattern_scriptHash _ _).trans (patternBaseOf_scriptHash _ _))

/-- Every row returned by the exact-fingerprint query matches the hash and
has exit code 0. -/
theorem mem_getJobsByScriptHash (db : JobHistoryDB) (h : String)
    (j : JobEfficiencyData) (hj : j ∈ getJobsByScriptHash db h) :
    j.scriptHash = h ∧ j.exitCode = 0 := by
  simp only [getJobsByScriptHash, sortByTimeDesc] at hj
  have hj2 := List.take_subset _ _ hj
  have hj3 := (List.mem_insertionSort _).mp hj2
  have hm := List.mem_filter.mp hj3
  have hp := hm.2
  simp only [Bool.and_eq_true, beq_iff_eq] at hp
  exact hp

/-- Every row returned by the resource-similarity query has exit code 0
and requested CPUs inside the code-level window built from nodes times
CPUs-per-task. -/
theorem mem_getJobsBySimilarResources (db : JobHistoryDB) (req : JobRequest)
    (j : JobEfficiencyData) (hj : j ∈ getJobsBySimilarResources db req) :
    j.exitCode = 0 ∧
    goDiv (req.nodes * req.cpusPerTask) 2 ≤ j.requestedCPUs ∧
    j.requestedCPUs ≤ 2 * (req.nodes * req.cpusPerTask) := by
  simp only [getJobsBySimilarResources, sortByTimeDesc] at hj
  have hj2 := List.take_subset _ _ hj
  have hj3 := (List.mem_insertionSort _).mp hj2
  have hm := List.mem_filter.mp hj3
  have hp := hm.2
  simp only [Bool.and_eq_true, beq_iff_eq, decide_eq_true_eq] at hp
  exact ⟨hp.1.1.1.1, hp.1.1.1.2, hp.1.1.2⟩

/-- Every run returned by `FindSimilarJobs` is successful: both underlying
queries filter on `exit_code = 0`. -/
theorem findSimilarJobs_all_successful (db : JobHistoryDB) (h : String)
    (req : JobRequest) :
    ∀ j ∈ findSimilarJobs db h req, j.isSuccessful = true := by
  intro j hj
  simp only [findSimilarJobs] at hj
  rw [List.mem_append] at hj
  rcases hj with hj | hj
  · have he := (mem_getJobsByScriptHash db h j hj).2
    simp [JobEfficiencyData.isSuccessful, he]
  · split at hj
    · have he := (mem_getJobsBySimilarResources db req j hj).1
      simp [JobEfficiencyData.isSuccessful, he]
    · simp at hj

/-- The successful filter is the identity on a `FindSimilarJobs` result. -/
theorem findSimilarJobs_filter_successful (db : JobHistoryDB) (h : String)
    (req : JobRequest) :
    (findSimilarJobs db h req).filter (fun j => j.isSuccessful) =
      findSimilarJobs db h req :=
  List.filter_eq_self.mpr (findSimilarJobs_all_successful db h req)

/-- Filtering out a key and appending a row with that key is idempotent. -/
theorem filter_append_single_idem {α : Type} (p : α → Bool) (xs : List α)
    (a : α) (ha : p a = false) :
    ((xs.filter p ++ [a]).filter p) ++ [a] = xs.filter p ++ [a] := by
  rw [List.filter_append, List.filter_filter]
  simp [ha, Bool.and_self]

/-! ## Claim C2: purchasing option at exactly 4 hours -/

/-- C2 counterexample: for a job whose time limit is exactly 4 hours the
synthesized instance specification carries purchasing option "spot", not
"on-demand" — the strict `> 4h` comparison does not fire at equality. -/
theorem c2_purchasing_at_4h_counterexample :
    (generateInstanceSpecification c2analysis
      { baseJob with timeLimit := 4 * timeHour }).purchasingOption =
        "spot" ∧
    "spot" ≠ "on-demand" := by
  constructor
  · show (if (4 : Int) * timeHour > 4 * timeHour then "on-demand"
      else "spot") = "spot"
    simp
  · decide

/-- C2 (amended): the purchasing option is "on-demand" exactly when the
time limit strictly exceeds 4 hours and "spot" otherwise — in particular
"spot" at exactly 4 hours; the sibling `prefer_spot` cost-constraint field
is true exactly when the time limit is strictly below 4 hours, so at
exactly 4 hours the plan purchases spot yet does not prefer spot. -/
theorem c2_purchasing_option (analysis : EnhancedAnalysis)
    (job : JobRequest) :
    ((generateInstanceSpecification analysis job).purchasingOption =
      if 4 * timeHour < job.timeLimit then "on-demand" else "spot") ∧
    ((generateInstanceSpecification analysis job).purchasingOption =
        "on-demand" ↔ 4 * timeHour < job.timeLimit) ∧
    (job.timeLimit = 4 * timeHour →
      (generateInstanceSpecification analysis job).purchasingOption =
        "spot") ∧
    ((generateCostConstraints analysis job).preferSpot = true ↔
      job.timeLimit < 4 * timeHour) := by
  refine ⟨rfl, ?_, ?_, ?_⟩
  · show (if 4 * timeHour < job.timeLimit then "on-demand" else "spot") =
      "on-demand" ↔ 4 * timeHour < job.timeLimit
    constructor
    · intro h
      by_contra hn
      rw [if_neg hn] at h
      exact absurd h (by decide)
    · intro h
      rw [if_pos h]
  · intro h
    show (if 4 * timeHour < job.timeLimit then "on-demand" else "spot") =
      "spot"
    rw [h, if_neg (lt_irrefl _)]
  · show decide (job.timeLimit < 4 * timeHour) = true ↔
      job.timeLimit < 4 * timeHour
    exact decide_eq_true_iff

/-- Witness for C2: a 5-hour job purchases on-demand, a 4-hour job
purchases spot and does not prefer spot. -/
theorem c2_purchasing_option_witness :
    (generateInstanceSpecification c2analysis
      { baseJob with timeLimit := 5 * timeHour }).purchasingOption =
        "on-demand" ∧
    (generateInstanceSpecification c2analysis
      { baseJob with timeLimit := 4 * timeHour }).purchasingOption =
        "spot" ∧
    (generateCostConstraints c2analysis
      { baseJob with timeLimit := 4 * timeHour }).preferSpot = false := by
  refine ⟨?_, ?_, ?_⟩
  · exact (c2_purchasing_option c2analysis
      { baseJob with timeLimit := 5 * timeHour }).2.1.mpr
      (by norm_num [timeHour, timeMinute, timeSecond])
  · exact (c2_purchasing_option c2analysis
      { baseJob with timeLimit := 4 * timeHour }).2.2.1 rfl
  · have h := (c2_purchasing_option c2analysis
      { baseJob with timeLimit := 4 * timeHour }).2.2.2
    have hn : ¬ ((4 : Int) * timeHour < 4 * timeHour) := lt_irrefl _
    rcases hb : (generateCostConstraints c2analysis
      { baseJob with timeLimit := 4 * timeHour }).preferSpot with _ | _
    · rfl
    · exact absurd (h.mp hb) hn

/-! ## Claim C5: the CPU right-sizing formula -/

/-- C5 counterexample: for the request with N=1, T=2, C=4 and two
successful runs at 50 percent CPU efficiency, the claim formula gives
max(1, floor(1.2·(8·0.5)/1)) = 4, which is NOT strictly below the current
4 CPUs-per-task, so the claim predicts no emission — yet the code emits a
CPU optimization, and its suggested per-task value 2 differs from the
claim value 4 (the code builds `effective` from N·C, not N·T·C). -/
theorem c5_cpu_counterexample :
    ((generateResourceOptimizations c5job c5hist).filter
      (fun o => o.resourceType == "cpu")).length = 1 ∧
    ¬ (cpuSuggestedPerTaskClaim c5job c5hist < c5job.cpusPerTask) ∧
    cpuSuggestedPerTask c5job c5hist ≠ cpuSuggestedPerTaskClaim c5job c5hist := by
  have havg : avgCpuEffOf c5hist = 50 := by
    norm_num [avgCpuEffOf, successfulRuns, c5hist, c5run, baseRun,
      JobEfficiencyData.isSuccessful, List.filter]
  have hmem : avgMemEffOf c5hist = 80 := by
    norm_num [avgMemEffOf, successfulRuns, c5hist, c5run, baseRun,
      JobEfficiencyData.isSuccessful, List.filter]
  have htime : avgTimeEffOf c5hist = 80 := by
    norm_num [avgTimeEffOf, successfulRuns, c5hist, c5run, baseRun,
      JobEfficiencyData.isSuccessful, List.filter]
  have hraw : cpuSuggestedRaw c5job c5hist = 2 := by
    rw [cpuSuggestedRaw, havg]
    norm_num [c5job, baseJob, ratTrunc]
    decide
  have hper : cpuSuggestedPerTask c5job c5hist = 2 := by
    rw [cpuSuggestedPerTask, hraw]
    norm_num [c5job, baseJob, goDiv]
  have hclaim : cpuSuggestedPerTaskClaim c5job c5hist = 4 := by
    rw [cpuSuggestedPerTaskClaim, havg]
    norm_num [c5job, baseJob, JobRequest.totalCPUs]
  refine ⟨?_, ?_, ?_⟩
  · rw [generateResourceOptimizations]
    rw [if_neg (by norm_num [c5hist])]
    rw [if_neg (by norm_num [successfulRuns, c5hist, c5run, baseRun,
      JobEfficiencyData.isSuccessful, List.filter])]
    rw [memoryOptOf, if_neg (by rw [hmem]; norm_num)]
    rw [timeOptOf, if_neg (by rw [htime]; norm_num)]
    rw [cpuOptOf, if_pos (by rw [havg]; norm_num)]
    rw [if_pos ⟨by rw [hraw]; norm_num [c5job, baseJob],
        by rw [hraw]; norm_num⟩]
    rw [if_pos ⟨by rw [hper]; norm_num [c5job, baseJob],
        by rw [hper]; norm_num⟩]
    rfl
  · rw [hclaim]
    norm_num [c5job, baseJob]
  · rw [hper, hclaim]
    norm_num

/-- C5 (amended): when there are at least 2 similar runs with at least one
successful and the mean CPU efficiency is below 60 percent, the CPU part
of the emitted optimizations is exactly the single suggestion with
per-task value `int(1.2·(N·C)·cpu_eff/100) / N` (integer division,
effective built from nodes times CPUs-per-task — tasks-per-node is not a
factor — and no clamping at 1), emitted exactly when the raw truncated
suggestion lies strictly between 0 and N·C and the per-task quotient lies
strictly between 0 and the current CPUs-per-task. -/
theorem c5_cpu_suggestion (job : JobRequest)
    (history : List JobEfficiencyData) (h2 : 2 ≤ history.length)
    (hs : successfulRuns history ≠ []) (hlow : avgCpuEffOf history < 60) :
    (generateResourceOptimizations job history).filter
        (fun o => o.resourceType == "cpu") = cpuOptOf job history ∧
    cpuOptOf job history =
      (if (cpuSuggestedRaw job history < job.nodes * job.cpusPerTask ∧
            cpuSuggestedRaw job history > 0) ∧
          (cpuSuggestedPerTask job history < job.cpusPerTask ∧
            cpuSuggestedPerTask job history > 0)
       then [cpuOptRecord job history] else []) ∧
    (cpuOptRecord job history).suggestedValue =
      toString (cpuSuggestedPerTask job history) := by
  refine ⟨?_, ?_, rfl⟩
  · rw [generateResourceOptimizations]
    rw [if_neg (by omega)]
    rw [if_neg (by
      intro h0
      exact hs (List.length_eq_zero.mp h0))]
    rw [List.filter_append, List.filter_append]
    have hm : (memoryOptOf job history).filter
        (fun o => o.resourceType == "cpu") = [] := by
      rw [List.filter_eq_nil_iff]
      intro a ha
      rw [memoryOptOf] at ha
      split_ifs at ha <;> simp at ha
      rw [ha]
      simp [memOptRecord]
    have ht : (timeOptOf job history).filter
        (fun o => o.resourceType == "cpu") = [] := by
      rw [List.filter_eq_nil_iff]
      intro a ha
      rw [timeOptOf] at ha
      split_ifs at ha <;> simp at ha
      rw [ha]
      simp [timeOptRecord]
    have hc : (cpuOptOf job history).filter
        (fun o => o.resourceType == "cpu") = cpuOptOf job history := by
      rw [List.filter_eq_self]
      intro a ha
      rw [cpuOptOf] at ha
      split_ifs at ha <;> simp at ha
      rw [ha]
      simp [cpuOptRecord]
    rw [hm, ht, hc]
    simp
  · rw [cpuOptOf, if_pos hlow]
    by_cases hA : cpuSuggestedRaw job history < job.nodes * job.cpusPerTask ∧
        cpuSuggestedRaw job history > 0
    · rw [if_pos hA]
      by_cases hB : cpuSuggestedPerTask job history < job.cpusPerTask ∧
          cpuSuggestedPerTask job history > 0
      · rw [if_pos hB, if_pos ⟨hA, hB⟩]
      · rw [if_neg hB, if_neg (fun hc => hB hc.2)]
    · rw [if_neg hA, if_neg (fun hc => hA hc.1)]

/-- Witness for C5 at the concrete request and history of the C5 scenario:
the CPU filter of the optimizations is the single suggestion "2". -/
theorem c5_cpu_suggestion_witness :
    (generateResourceOptimizations c5job c5hist).filter
        (fun o => o.resourceType == "cpu") = cpuOptOf c5job c5hist ∧
    cpuOptOf c5job c5hist =
      (if (cpuSuggestedRaw c5job c5hist < c5job.nodes * c5job.cpusPerTask ∧
            cpuSuggestedRaw c5job c5hist > 0) ∧
          (cpuSuggestedPerTask c5job c5hist < c5job.cpusPerTask ∧
            cpuSuggestedPerTask c5job c5hist > 0)
       then [cpuOptRecord c5job c5hist] else []) ∧
    (cpuOptRecord c5job c5hist).suggestedValue =
      toString (cpuSuggestedPerTask c5job c5hist) :=
  c5_cpu_suggestion c5job c5hist (by decide)
    (by decide)
    (by norm_num [avgCpuEffOf, successfulRuns, c5hist, c5run, baseRun,
      JobEfficiencyData.isSuccessful, List.filter])

/-! ## Claim C6: optimizer skip on too few similar runs -/

/-- C6: when fewer than 2 of the similar runs returned by the store are
successful (all returned runs are successful, so this means fewer than 2
returned), the optimizer emits no resource optimizations and no instance
recommendation, and the enhanced analysis carries the baseline decision
unchanged with `similar_jobs_found` set to the number found. -/
theorem c6_optimizer_skip (weights : DecisionWeights)
    (lp ap : PartitionAnalysis) (job : JobRequest) (db : JobHistoryDB)
    (hash : String)
    (hfew : ((findSimilarJobs db hash job).filter
      (fun j => j.isSuccessful)).length < 2) :
    generateResourceOptimizations job (findSimilarJobs db hash job) = [] ∧
    generateInstanceRecommendations job (findSimilarJobs db hash job) = [] ∧
    (analyzeWithHistory weights lp ap job db hash).current.recommendation =
      compare weights lp ap job ∧
    (analyzeWithHistory weights lp ap job db hash).optimized = none ∧
    (analyzeWithHistory weights lp ap job db hash).decisionImpact = none ∧
    (analyzeWithHistory weights lp ap job db hash).resourceOptimizations
      = [] ∧
    (analyzeWithHistory weights lp ap job db hash).instanceRecommendations
      = [] ∧
    (analyzeWithHistory weights lp ap job db hash).historyInsights.map
        (fun i => i.similarJobsFound) =
      some ((findSimilarJobs db hash job).length : Int) := by
  have hlen : (findSimilarJobs db hash job).length < 2 := by
    rw [findSimilarJobs_filter_successful] at hfew
    exact hfew
  have hopts : generateResourceOptimizations job
      (findSimilarJobs db hash job) = [] := by
    rw [generateResourceOptimizations, if_pos hlen]
  have hrecs : generateInstanceRecommendations job
      (findSimilarJobs db hash job) = [] := by
    rw [generateInstanceRecommendations, if_pos hlen]
  refine ⟨hopts, hrecs, ?_, ?_, ?_, ?_, ?_, ?_⟩ <;>
    · simp only [analyzeWithHistory]
      by_cases hz : (findSimilarJobs db hash job).length = 0
      · rw [if_pos hz]
        try simp [hz]
      · rw [if_neg hz]
        try rw [hopts]
        try simp only [List.length_nil, gt_iff_lt, lt_irrefl, if_false]
        try simp [hopts, hrecs, generateHistoryInsights, hz]

/-- Witness for C6 over the empty store: no similar runs, so the analysis
is the bare baseline. -/
theorem c6_optimizer_skip_witness :
    generateResourceOptimizations baseJob
      (findSimilarJobs ⟨[], []⟩ "" baseJob) = [] ∧
    generateInstanceRecommendations baseJob
      (findSimilarJobs ⟨[], []⟩ "" baseJob) = [] ∧
    (analyzeWithHistory baseWeights basePart basePart baseJob ⟨[], []⟩
      "").current.recommendation =
      compare baseWeights basePart basePart baseJob ∧
    (analyzeWithHistory baseWeights basePart basePart baseJob ⟨[], []⟩
      "").optimized = none ∧
    (analyzeWithHistory baseWeights basePart basePart baseJob ⟨[], []⟩
      "").decisionImpact = none ∧
    (analyzeWithHistory baseWeights basePart basePart baseJob ⟨[], []⟩
      "").resourceOptimizations = [] ∧
    (analyzeWithHistory baseWeights basePart basePart baseJob ⟨[], []⟩
      "").instanceRecommendations = [] ∧
    (analyzeWithHistory baseWeights basePart basePart baseJob ⟨[], []⟩
      "").historyInsights.map (fun i => i.similarJobsFound) =
      some ((findSimilarJobs ⟨[], []⟩ "" baseJob).length : Int) :=
  c6_optimizer_skip baseWeights basePart basePart baseJob ⟨[], []⟩ ""
    (by decide)

/-! ## Claim C3: the availability sub-score -/

/-- C3 counterexample: a local partition with 4 total nodes and 0 available
nodes gets availability sub-score 50 although `100·available/total = 0`; so
the sub-score is not 0 at available = 0, and 50 occurs with total ≠ 0. -/
theorem c3_avail_score_counterexample :
    availScoreOf { basePart with availableNodes := 0, totalNodes := 4 } = 50 ∧
    100 * (0 : ℚ) / 4 = 0 ∧ (50 : ℚ) ≠ 0 := by
  refine ⟨?_, by norm_num, by norm_num⟩
  decide

/-- C3 (amended): the availability sub-score is 90 for the "aws" venue; for
any other venue it equals `100·available/total` only when BOTH the available
and the total node counts are positive, and it is the neutral default 50
when available ≤ 0 or total ≤ 0 — in particular a local venue with zero
available nodes scores 50, not 0.  The decision score is the weighted sum
of the three sub-scores. -/
theorem c3_avail_score (weights : DecisionWeights) (a : PartitionAnalysis)
    (job : JobRequest) :
    (a.partitionType = "aws" → availScoreOf a = 90) ∧
    (a.partitionType ≠ "aws" → 0 < a.availableNodes → 0 < a.totalNodes →
      availScoreOf a = 100 * (a.availableNodes : ℚ) / (a.totalNodes : ℚ)) ∧
    (a.partitionType ≠ "aws" → a.availableNodes ≤ 0 ∨ a.totalNodes ≤ 0 →
      availScoreOf a = 50) ∧
    calculateScore weights a job =
      timeScoreOf a * weights.timeWeight +
        costScoreOf a * weights.costWeight +
        availScoreOf a * weights.reliabilityWeight := by
  refine ⟨?_, ?_, ?_, rfl⟩
  · intro h; rw [availScoreOf, if_pos h]
  · intro h h1 h2
    rw [availScoreOf, if_neg h, if_pos ⟨h1, h2⟩]
    ring
  · intro h h1
    have hn : ¬ (0 < a.availableNodes ∧ 0 < a.totalNodes) := by
      rintro ⟨p, q⟩; rcases h1 with h1 | h1 <;> omega
    rw [availScoreOf, if_neg h, if_neg hn]

/-- Witness for C3 at concrete snapshots: an aws venue scores 90; a local
venue with 1 of 4 nodes available scores 100·1/4 = 25. -/
theorem c3_avail_score_witness :
    availScoreOf { basePart with partitionType := "aws" } = 90 ∧
    availScoreOf { basePart with availableNodes := 1, totalNodes := 4 } =
      100 * ((1 : Int) : ℚ) / ((4 : Int) : ℚ) := by
  constructor
  · exact (c3_avail_score baseWeights
      { basePart with partitionType := "aws" } baseJob).1 rfl
  · exact (c3_avail_score baseWeights
      { basePart with availableNodes := 1, totalNodes := 4 } baseJob).2.1
      (by decide) (by decide) (by decide)

/-! ## Claim C7: confidence clamp and non-empty reasoning -/

/-- C7: for every pair of partition analyses and every job request, the
recommendation produced by Compare has confidence equal to
clamp(|score_aws − score_local|/100, 0.1, 1.0) — hence within the interval
from 0.1 to 1.0 — and a non-empty reasoning list. -/
theorem c7_confidence_clamp_and_reasoning (weights : DecisionWeights)
    (lp ap : PartitionAnalysis) (job : JobRequest) :
    (compare weights lp ap job).confidence =
      max (1 / 10) (min 1
        (|calculateScore weights ap job - calculateScore weights lp job|
          / 100)) ∧
    1 / 10 ≤ (compare weights lp ap job).confidence ∧
    (compare weights lp ap job).confidence ≤ 1 ∧
    (compare weights lp ap job).reasoning ≠ [] := by
  have hc : (compare weights lp ap job).confidence =
      calculateConfidence (calculateScore weights lp job)
        (calculateScore weights ap job) := rfl
  have hr : (compare weights lp ap job).reasoning =
      generateReasoning lp ap job
        (ap.estimatedCost.totalCost - lp.estimatedCost.totalCost)
        ((lp.estimatedWaitTime + job.timeLimit) -
          (ap.startupTime + job.timeLimit)) := rfl
  refine ⟨?_, ?_, ?_, ?_⟩
  · rw [hc, calculateConfidence_eq_clamp]
  · rw [hc, calculateConfidence_eq_clamp]; exact le_max_left _ _
  · rw [hc, calculateConfidence_eq_clamp]
    exact max_le (by norm_num) (min_le_left _ _)
  · rw [hr]; exact generateReasoning_ne_nil _ _ _ _ _

/-! ## Claim C1: insertion idempotence of the history store -/

/-- C1 counterexample: storing the same run (non-empty fingerprint "h")
twice on an empty store leaves one run record, but the per-script pattern
has run count 2 where a single insertion leaves run count 1 — the pattern
state of the double insertion differs from the single one. -/
theorem c1_store_twice_counterexample :
    ((storeJobExecution (storeJobExecution ⟨[], []⟩ c1run) c1run).patterns.find?
        (fun p => p.scriptHash == "h")).map JobPattern.runCount = some 2 ∧
    ((storeJobExecution ⟨[], []⟩ c1run).patterns.find?
        (fun p => p.scriptHash == "h")).map JobPattern.runCount = some 1 ∧
    (storeJobExecution (storeJobExecution ⟨[], []⟩ c1run) c1run).patterns ≠
      (storeJobExecution ⟨[], []⟩ c1run).patterns := by
  have hA : ((storeJobExecution (storeJobExecution ⟨[], []⟩ c1run)
      c1run).patterns.find? (fun p => p.scriptHash == "h")).map
        JobPattern.runCount = some 2 := by decide
  have hB : ((storeJobExecution ⟨[], []⟩ c1run).patterns.find?
      (fun p => p.scriptHash == "h")).map JobPattern.runCount = some 1 := by
    decide
  refine ⟨hA, hB, ?_⟩
  intro heq
  have hmap := congrArg
    (fun l => (l.find? (fun p => p.scriptHash == "h")).map
      JobPattern.runCount) heq
  simp only at hmap
  rw [hA, hB] at hmap
  exact absurd hmap (by decide)

/-- C1 (amended): storing the same run twice leaves the run records exactly
as a single insertion (one record per job id), but the per-script pattern
is folded a second time as though a fresh run had arrived: the pattern
found after the double insertion is `applyRunToPattern` of the pattern
found after the single insertion, so its run count is one higher (platform
counts likewise); only the running means of identical values and the
success rate coincide with the single insertion. -/
theorem c1_insert_twice (db : JobHistoryDB) (job : JobEfficiencyData)
    (hne : job.scriptHash ≠ "") :
    (storeJobExecution (storeJobExecution db job) job).runs =
      (storeJobExecution db job).runs ∧
    ∃ p, (storeJobExecution db job).patterns.find?
          (fun q => q.scriptHash == job.scriptHash) = some p ∧
      (storeJobExecution (storeJobExecution db job) job).patterns.find?
          (fun q => q.scriptHash == job.scriptHash) =
        some (applyRunToPattern p job) ∧
      (applyRunToPattern p job).runCount = p.runCount + 1 := by
  constructor
  · show ((db.runs.filter (fun r => !(r.jobID == job.jobID)) ++
        [storeScanRoundTrip job]).filter (fun r => !(r.jobID == job.jobID)))
        ++ [storeScanRoundTrip job] =
      db.runs.filter (fun r => !(r.jobID == job.jobID)) ++
        [storeScanRoundTrip job]
    apply filter_append_single_idem
    simp [storeScanRoundTrip]
  · refine ⟨applyRunToPattern (patternBaseOf db.patterns job) job, ?_, ?_, rfl⟩
    · exact updateJobPattern_find? db.patterns job hne
    · show (updateJobPattern (updateJobPattern db.patterns job) job).find? _ = _
      rw [updateJobPattern_find? (updateJobPattern db.patterns job) job hne,
        patternBaseOf_of_find?_some (updateJobPattern db.patterns job) job _
          (updateJobPattern_find? db.patterns job hne)]

/-- Witness for C1 at the concrete run `c1run` over the empty store. -/
theorem c1_insert_twice_witness :
    (storeJobExecution (storeJobExecution ⟨[], []⟩ c1run) c1run).runs =
      (storeJobExecution ⟨[], []⟩ c1run).runs ∧
    ∃ p, (storeJobExecution ⟨[], []⟩ c1run).patterns.find?
          (fun q => q.scriptHash == c1run.scriptHash) = some p ∧
      (storeJobExecution (storeJobExecution ⟨[], []⟩ c1run) c1run).patterns.find?
          (fun q => q.scriptHash == c1run.scriptHash) =
        some (applyRunToPattern p c1run) ∧
      (applyRunToPattern p c1run).runCount = p.runCount + 1 :=
  c1_insert_twice ⟨[], []⟩ c1run (by decide)

/-! ## Claim C4: similarity lookup -/

/-- C4 counterexample: with no exact match, the store returns the run
`c4run` (2 requested CPUs) for the request `c4req`, whose spec-level
`TotalCPUs = N·T·C = 8` gives the claimed window lower bound 4 — the
returned run lies BELOW `0.5·TotalCPUs`, because the query is built from
`N·C = 4` instead. -/
theorem c4_find_similar_counterexample :
    findSimilarJobs ⟨[c4run], []⟩ "q" c4req = [c4run] ∧
    ¬ ((1 / 2 : ℚ) * (c4req.totalCPUs : ℚ) ≤ (c4run.requestedCPUs : ℚ)) := by
  constructor
  · norm_num [findSimilarJobs, getJobsByScriptHash, getJobsBySimilarResources,
      sortByTimeDesc, c4run, c4req, baseRun, baseJob, goDiv, Int.tdiv]
  · norm_num [c4run, c4req, baseRun, baseJob, JobRequest.totalCPUs]

/-- C4 (amended): FindSimilarJobs returns the exact-fingerprint matches —
at most 20, all with the requested hash and exit code 0, ordered by
submission time descending — followed, only when there are fewer than 3 of
them, by at most 10 resource-similar runs with exit code 0 whose requested
CPUs lie between `int(0.5·(N·C))` and `int(2·(N·C))` where the product is
nodes times CPUs-per-task (tasks-per-node is NOT a factor, unlike the
spec-level TotalCPUs = N·T·C). -/
theorem c4_find_similar (db : JobHistoryDB) (hash : String)
    (req : JobRequest) :
    findSimilarJobs db hash req =
      getJobsByScriptHash db hash ++
        (if (getJobsByScriptHash db hash).length < 3
         then getJobsBySimilarResources db req else []) ∧
    (getJobsByScriptHash db hash).length ≤ 20 ∧
    (∀ j ∈ getJobsByScriptHash db hash,
      j.scriptHash = hash ∧ j.exitCode = 0) ∧
    (getJobsByScriptHash db hash).Pairwise
      (fun a b => b.submissionTime ≤ a.submissionTime) ∧
    (3 ≤ (getJobsByScriptHash db hash).length →
      findSimilarJobs db hash req = getJobsByScriptHash db hash) ∧
    (getJobsBySimilarResources db req).length ≤ 10 ∧
    (∀ j ∈ getJobsBySimilarResources db req,
      j.exitCode = 0 ∧
      goDiv (req.nodes * req.cpusPerTask) 2 ≤ j.requestedCPUs ∧
      j.requestedCPUs ≤ 2 * (req.nodes * req.cpusPerTask)) := by
  refine ⟨rfl, ?_, ?_, ?_, ?_, ?_, ?_⟩
  · simp only [getJobsByScriptHash, List.length_take]
    omega
  · intro j hj
    simp only [getJobsByScriptHash, sortByTimeDesc] at hj
    have hj2 := List.take_subset _ _ hj
    have hj3 := (List.mem_insertionSort _).mp hj2
    have hm := List.mem_filter.mp hj3
    have hp := hm.2
    simp only [Bool.and_eq_true, beq_iff_eq] at hp
    exact hp
  · simp only [getJobsByScriptHash, sortByTimeDesc]
    apply List.Pairwise.sublist (List.take_sublist _ _)
    haveI : IsTotal JobEfficiencyData
        (fun a b => b.submissionTime ≤ a.submissionTime) :=
      ⟨fun a b => le_total b.submissionTime a.submissionTime⟩
    haveI : IsTrans JobEfficiencyData
        (fun a b => b.submissionTime ≤ a.submissionTime) :=
      ⟨fun a b c h1 h2 => le_trans h2 h1⟩
    exact List.sorted_insertionSort _ _
  · intro h3
    have hn : ¬ (getJobsByScriptHash db hash).length < 3 := by omega
    simp only [findSimilarJobs, hn, if_false]
    simp
  · simp only [getJobsBySimilarResources, List.length_take]
    omega
  · intro j hj
    simp only [getJobsBySimilarResources, sortByTimeDesc] at hj
    have hj2 := List.take_subset _ _ hj
    have hj3 := (List.mem_insertionSort _).mp hj2
    have hm := List.mem_filter.mp hj3
    have hp := hm.2
    simp only [Bool.and_eq_true, beq_iff_eq, decide_eq_true_eq] at hp
    exact ⟨hp.1.1.1.1, hp.1.1.1.2, hp.1.1.2⟩

/-- Witness for C4: on the one-row store of `c4run`, the returned run obeys
the code-level CPU window built from nodes times CPUs-per-task. -/
theorem c4_find_similar_witness :
    c4run.exitCode = 0 ∧
    goDiv (c4req.nodes * c4req.cpusPerTask) 2 ≤ c4run.requestedCPUs ∧
    c4run.requestedCPUs ≤ 2 * (c4req.nodes * c4req.cpusPerTask) :=
  (c4_find_similar ⟨[c4run], []⟩ "q" c4req).2.2.2.2.2.2 c4run (by
    norm_num [getJobsBySimilarResources, sortByTimeDesc, c4run, c4req,
      baseRun, baseJob, goDiv, Int.tdiv])

/-! ## Claim C8: the workload classification table -/

/-- C8: for every pair of derived efficiencies, the workload classification
follows the fixed first-match table: cpu-bound if cpu > 80 and mem < 60;
else memory-bound if mem > 80 and cpu < 60; else balanced if cpu > 70 and
mem > 70; else over-allocated if cpu < 40 and mem < 40; otherwise mixed. -/
theorem c8_workload_classification_table (j : JobEfficiencyData) :
    (j.cpuEfficiency > 80 ∧ j.memoryEfficiency < 60 →
      j.classifyWorkload = "cpu-bound") ∧
    (¬(j.cpuEfficiency > 80 ∧ j.memoryEfficiency < 60) →
      j.memoryEfficiency > 80 ∧ j.cpuEfficiency < 60 →
      j.classifyWorkload = "memory-bound") ∧
    (¬(j.cpuEfficiency > 80 ∧ j.memoryEfficiency < 60) →
      ¬(j.memoryEfficiency > 80 ∧ j.cpuEfficiency < 60) →
      j.cpuEfficiency > 70 ∧ j.memoryEfficiency > 70 →
      j.classifyWorkload = "balanced") ∧
    (¬(j.cpuEfficiency > 80 ∧ j.memoryEfficiency < 60) →
      ¬(j.memoryEfficiency > 80 ∧ j.cpuEfficiency < 60) →
      ¬(j.cpuEfficiency > 70 ∧ j.memoryEfficiency > 70) →
      j.cpuEfficiency < 40 ∧ j.memoryEfficiency < 40 →
      j.classifyWorkload = "over-allocated") ∧
    (¬(j.cpuEfficiency > 80 ∧ j.memoryEfficiency < 60) →
      ¬(j.memoryEfficiency > 80 ∧ j.cpuEfficiency < 60) →
      ¬(j.cpuEfficiency > 70 ∧ j.memoryEfficiency > 70) →
      ¬(j.cpuEfficiency < 40 ∧ j.memoryEfficiency < 40) →
      j.classifyWorkload = "mixed") := by
  unfold JobEfficiencyData.classifyWorkload
  refine ⟨?_, ?_, ?_, ?_, ?_⟩
  · intro h1; rw [if_pos h1]
  · intro h1 h2; rw [if_neg h1, if_pos h2]
  · intro h1 h2 h3; rw [if_neg h1, if_neg h2, if_pos h3]
  · intro h1 h2 h3 h4; rw [if_neg h1, if_neg h2, if_neg h3, if_pos h4]
  · intro h1 h2 h3 h4; rw [if_neg h1, if_neg h2, if_neg h3, if_neg h4]

/-- Witness for C8 at a concrete efficiency record (cpu 85, mem 50 is
classified cpu-bound). -/
theorem c8_workload_classification_table_witness :
    ({ baseRun with cpuEfficiency := 85, memoryEfficiency := 50
       : JobEfficiencyData }).classifyWorkload = "cpu-bound" :=
  (c8_workload_classification_table
    { baseRun with cpuEfficiency := 85, memoryEfficiency := 50 }).1
    (by constructor <;> norm_num)

/-! ## Claim C9: totality and range of UtilizationRate -/

/-- C9 counterexample: with `availableNodes = -1 ≤ totalNodes = 4` the rate
is 5/4, outside of the interval claimed; the claim needs `0 ≤ available`. -/
theorem c9_utilization_counterexample :
    ({ name := "p", partitionType := "local", queueDepth := 0
       estimatedWaitTime := 0, startupTime := 0
       availableNodes := -1, totalNodes := 4
       estimatedCost := ⟨0, 0, 0, 0, 0, 0⟩, instanceType := ""
       currentPrice := 0 : PartitionAnalysis }).availableNodes ≤
      ({ name := "p", partitionType := "local", queueDepth := 0
         estimatedWaitTime := 0, startupTime := 0
         availableNodes := -1, totalNodes := 4
         estimatedCost := ⟨0, 0, 0, 0, 0, 0⟩, instanceType := ""
         currentPrice := 0 : PartitionAnalysis }).totalNodes ∧
    ¬ ({ name := "p", partitionType := "local", queueDepth := 0
         estimatedWaitTime := 0, startupTime := 0
         availableNodes := -1, totalNodes := 4
         estimatedCost := ⟨0, 0, 0, 0, 0, 0⟩, instanceType := ""
         currentPrice := 0 : PartitionAnalysis }).utilizationRate ≤ 1 := by
  constructor
  · decide
  · unfold PartitionAnalysis.utilizationRate
    norm_num

/-- C9 (amended): UtilizationRate is total — it returns 0 when
`totalNodes = 0` instead of dividing by zero, otherwise returns
`(total - available)/total`, and the value lies in the unit interval
whenever `0 ≤ available ≤ total`. -/
theorem c9_utilization_rate_total (p : PartitionAnalysis) :
    (p.totalNodes = 0 → p.utilizationRate = 0) ∧
    (p.totalNodes ≠ 0 →
      p.utilizationRate =
        ((p.totalNodes - p.availableNodes : Int) : ℚ) / (p.totalNodes : ℚ)) ∧
    (0 ≤ p.availableNodes → p.availableNodes ≤ p.totalNodes →
      p.totalNodes ≠ 0 →
      0 ≤ p.utilizationRate ∧ p.utilizationRate ≤ 1) := by
  refine ⟨?_, ?_, ?_⟩
  · intro h; simp [PartitionAnalysis.utilizationRate, h]
  · intro h; simp [PartitionAnalysis.utilizationRate, h]
  · intro h0 hle hne
    have htpos : (0 : Int) < p.totalNodes := lt_of_le_of_ne (le_trans h0 hle) (Ne.symm hne)
    have htq : (0 : ℚ) < (p.totalNodes : ℚ) := by exact_mod_cast htpos
    constructor
    · rw [PartitionAnalysis.utilizationRate]
      simp only [hne, if_false]
      apply div_nonneg _ (le_of_lt htq)
      have : (0 : Int) ≤ p.totalNodes - p.availableNodes := by omega
      exact_mod_cast this
    · rw [PartitionAnalysis.utilizationRate]
      simp only [hne, if_false]
      rw [div_le_one htq]
      have : (p.totalNodes - p.availableNodes : Int) ≤ p.totalNodes := by omega
      exact_mod_cast this

/-- Witness for C9 at a concrete snapshot (total 4, available 1: rate 3/4,
inside the unit interval). -/
theorem c9_utilization_rate_total_witness :
    ({ name := "p", partitionType := "local", queueDepth := 0
       estimatedWaitTime := 0, startupTime := 0
       availableNodes := 1, totalNodes := 4
       estimatedCost := ⟨0, 0, 0, 0, 0, 0⟩, instanceType := ""
       currentPrice := 0 : PartitionAnalysis }).utilizationRate =
      (3 : ℚ) / 4 ∧
    (0 : ℚ) ≤ (3 : ℚ) / 4 ∧ (3 : ℚ) / 4 ≤ 1 := by
  have h := c9_utilization_rate_total
    { name := "p", partitionType := "local", queueDepth := 0
      estimatedWaitTime := 0, startupTime := 0
      availableNodes := 1, totalNodes := 4
      estimatedCost := ⟨0, 0, 0, 0, 0, 0⟩, instanceType := ""
      currentPrice := 0 }
  have h2 := h.2.1 (by norm_num)
  have h3 := h.2.2 (by norm_num) (by norm_num) (by norm_num)
  refine ⟨?_, ?_, ?_⟩
  · rw [h2]; norm_num
  · norm_num
  · norm_num

/-! ## Claim C10: Validate and the tasks-per-node default -/

/-- C10 counterexample: with positive nodes and cpus but non-positive
tasks-per-node and time limit, Validate returns an error AND has already
mutated `nTasksPerNode` to 1, so the error does not leave the other fields
unchanged. -/
theorem c10_validate_counterexample :
    (({ baseJob with nTasksPerNode := 0, timeLimit := 0
        : JobRequest }).validate).2.isSome = true ∧
    (({ baseJob with nTasksPerNode := 0, timeLimit := 0
        : JobRequest }).validate).1.nTasksPerNode = 1 ∧
    ({ baseJob with nTasksPerNode := 0, timeLimit := 0
       : JobRequest }).nTasksPerNode = 0 := by
  refine ⟨?_, ?_, ?_⟩ <;> decide

/-- C10 (amended): Validate never returns an error for a non-positive
tasks-per-node; when nodes and cpus-per-task are positive it mutates the
request, defaulting `nTasksPerNode` to 1.  Errors for non-positive nodes or
cpus-per-task leave the request unchanged; the error for a non-positive
time limit is returned after the tasks-per-node default has been applied.
Validation succeeds exactly when nodes, cpus-per-task and time limit are
all positive. -/
theorem c10_validate_behaviour (j : JobRequest) :
    (j.nodes ≤ 0 ∨ (0 < j.nodes ∧ j.cpusPerTask ≤ 0) →
      j.validate = (j, some (if j.nodes ≤ 0 then "nodes must be positive"
        else "cpus_per_task must be positive"))) ∧
    (0 < j.nodes → 0 < j.cpusPerTask → j.nTasksPerNode ≤ 0 →
      j.validate.1 = { j with nTasksPerNode := 1 }) ∧
    (0 < j.nodes → 0 < j.cpusPerTask → 0 < j.nTasksPerNode →
      j.validate.1 = j) ∧
    (j.validate.2 = none ↔
      0 < j.nodes ∧ 0 < j.cpusPerTask ∧ 0 < j.timeLimit) := by
  unfold JobRequest.validate
  refine ⟨?_, ?_, ?_, ?_⟩
  · rintro (h | ⟨h1, h2⟩)
    · simp [h]
    · have : ¬ j.nodes ≤ 0 := by omega
      simp [this, h2]
  · intro h1 h2 h3
    have e1 : ¬ j.nodes ≤ 0 := by omega
    have e2 : ¬ j.cpusPerTask ≤ 0 := by omega
    simp only [e1, if_false, e2, h3, if_true]
    split <;> rfl
  · intro h1 h2 h3
    have e1 : ¬ j.nodes ≤ 0 := by omega
    have e2 : ¬ j.cpusPerTask ≤ 0 := by omega
    have e3 : ¬ j.nTasksPerNode ≤ 0 := by omega
    simp only [e1, if_false, e2, e3]
    split <;> rfl
  · constructor
    · intro h
      by_cases h1 : j.nodes ≤ 0
      · simp [h1] at h
      by_cases h2 : j.cpusPerTask ≤ 0
      · simp [h1, h2] at h
      refine ⟨by omega, by omega, ?_⟩
      simp only [h1, if_false, h2] at h
      by_cases h3 : j.nTasksPerNode ≤ 0
      · simp only [h3, if_true] at h
        by_cases h4 : j.timeLimit ≤ 0
        · exfalso
          have h5 : ({ j with nTasksPerNode := 1 } : JobRequest).timeLimit ≤ 0 := h4
          simp [h5] at h
        · omega
      · simp only [h3, if_false] at h
        by_cases h4 : j.timeLimit ≤ 0
        · simp [h4] at h
        · omega
    · rintro ⟨h1, h2, h3⟩
      have e1 : ¬ j.nodes ≤ 0 := by omega
      have e2 : ¬ j.cpusPerTask ≤ 0 := by omega
      have e3 : ¬ j.timeLimit ≤ 0 := by omega
      simp only [e1, if_false, e2]
      split <;> simp [e3]

/-- Witness for C10 at concrete requests: a request with tasks-per-node 0
and otherwise valid fields is defaulted to 1 and accepted. -/
theorem c10_validate_behaviour_witness :
    ({ baseJob with nTasksPerNode := 0 : JobRequest }).validate.1 =
      { { baseJob with nTasksPerNode := 0 } with nTasksPerNode := 1 } ∧
    ({ baseJob with nTasksPerNode := 0 : JobRequest }).validate.2 = none := by
  have h := c10_validate_behaviour { baseJob with nTasksPerNode := 0 }
  refine ⟨h.2.1 (by decide) (by decide) (by decide), ?_⟩
  exact (h.2.2.2).2 ⟨by decide, by decide, by decide⟩

end ASBA
